import Mathlib

/-!
Shallow embedding of the answer-evaluation pipeline of
`evaluateController.js` (src/unnamed/part_000) and its route
(src/back-end/routes/evaluateRoutes.js).

JavaScript strings are modelled as lists of character codes
(`List Nat`); JavaScript numbers as `Rat` (the code never produces
NaN/Infinity on the paths modelled here).  The external grading oracle
and `Math.random` are modelled as explicit per-answer inputs.
-/

namespace PaperEval

/-- Character codes of a Lean string literal, used to write the
JavaScript string constants and concrete test inputs of the source. -/
def strCodes (s : String) : List Nat :=
  s.data.map Char.toNat

/-- The whitespace characters relevant to `String.prototype.trim` for the
ASCII inputs of this system (space, tab, LF, CR). -/
def isWSCode (n : Nat) : Bool :=
  n == 32 || n == 9 || n == 10 || n == 13

/-- JS `String.prototype.toUpperCase` on one ASCII character code. -/
def upperCode (n : Nat) : Nat :=
  if 97 ≤ n ∧ n ≤ 122 then n - 32 else n

/-- JS `String.prototype.trim`: drop leading and trailing whitespace. -/
def jsTrim (l : List Nat) : List Nat :=
  (((l.dropWhile isWSCode).reverse.dropWhile isWSCode)).reverse

/-- JS `String.prototype.toUpperCase` (ASCII). -/
def jsUpper (l : List Nat) : List Nat :=
  l.map upperCode

/-- A decimal digit code, as matched by `\d`. -/
def isDigitCode (n : Nat) : Bool :=
  48 ≤ n && n ≤ 57

/-- Source function `normalizeQNum` (part_000 lines 31-34): `qNum.match(/^\d+/)` —
the leading run of decimal digits when the string starts with a digit,
otherwise the string unchanged. -/
def normalizeQNum (l : List Nat) : List Nat :=
  let d := l.takeWhile isDigitCode
  if d.isEmpty then l else d

/-- The identifier normalization actually applied to each identifier in
the matching loop (part_000 lines 37-43): `.toString().trim().toUpperCase()`
followed by `normalizeQNum`. -/
def normalizeFull (l : List Nat) : List Nat :=
  normalizeQNum (jsUpper (jsTrim l))

/-- An exam question (document in `exam.questions`).  The source resolves
the maximum as `questionObj.maxMarks || questionObj.marks` (a schema-level
alias between two field names, the schema itself not being part of the
controller); `maxMarks` here is that resolved value. -/
structure Question where
  questionNumber : Option (List Nat)
  questionText : List Nat
  maxMarks : Rat
  deriving DecidableEq, Repr

/-- One element of `student.answers`. -/
structure SubmittedAnswer where
  questionNumber : Option (List Nat)
  answerText : List Nat
  deriving DecidableEq, Repr

/-- One element of the `evaluations` array the controller builds.  The
not-found branch (lines 47-51) pushes an object without a `usedFallback`
field, hence `Option Bool`. -/
structure Evaluation where
  questionNumber : List Nat
  marks : Rat
  feedback : List Nat
  usedFallback : Option Bool
  deriving DecidableEq, Repr

/-- The `StudentAnswer` document, with the result fields the controller
mutates. -/
structure Student where
  rollNumber : List Nat
  examId : Option (List Nat)
  answers : List SubmittedAnswer
  evaluated : List Evaluation
  totalMarks : Rat
  result : List Nat
  deriving DecidableEq, Repr

/-- The `Exam` document. -/
structure Exam where
  id : List Nat
  questions : List Question
  passMarks : Rat
  deriving DecidableEq, Repr

/-- Outcome of the oracle interaction for one answer, up to and including
JSON parsing of `data?.choices?.[0]?.text?.trim()` (lines 77-103).
`parsedOk m fb` is the case where the reply text was non-empty, parsed as
JSON, and the parsed object has a numeric `marks` field `m` and a string
`feedback` field `fb` (possibly empty — the controller still checks its
truthiness at line 105). -/
inductive OracleResult where
  | transportError
  | emptyText
  | malformedJson
  | missingFields
  | parsedOk (marks : Rat) (feedback : List Nat)
  deriving DecidableEq, Repr

/-- Whether the oracle outcome reaches the `catch` block (lines 113-120)
rather than the success assignment (lines 106-108). -/
def OracleResult.isFailure : OracleResult → Bool
  | .parsedOk _ fb => fb.isEmpty
  | _ => true

/-- The `Math.random()` draws consumed by one answer's fallback path,
each a real in `[0, 1)` supplied by the environment. -/
structure AnswerEnv where
  oracle : OracleResult
  rMarks : Rat
  rFeedback : Rat
  deriving DecidableEq, Repr

/-- Source constant `fallbackFeedbacks` (lines 154-160). -/
def fallbackFeedbacks : List (List Nat) :=
  [strCodes "Answer is somewhat related to the topic.",
   strCodes "Fair attempt, but lacks depth.",
   strCodes "Contains partial relevant information.",
   strCodes "Needs improvement, but shows effort.",
   strCodes "Answer lacks clarity but is understandable."]

/-- Source function `getRandomMarks` (lines 167-169):
`Math.floor(Math.random() * (Number(maxMarks) + 1))`.
(`Rat.floor` is the same function as `Int.floor` on `ℚ`, see
`getRandomMarks_eq_floor` below.) -/
def getRandomMarks (maxMarks : Rat) (r : Rat) : Int :=
  (r * (maxMarks + 1)).floor

/-- Source function `getRandomFeedback` (lines 162-165). -/
def getRandomFeedback (r : Rat) : List Nat :=
  (fallbackFeedbacks.getD (r * (fallbackFeedbacks.length : Rat)).floor.toNat [])

/-- Feedback of the not-found branch (line 50). -/
def notFoundFeedback : List Nat :=
  strCodes "Question not found in exam config."

/-- The question lookup of lines 40-44: first question whose
normalized identifier equals the normalized submitted identifier. -/
def findQuestion (questions : List Question) (normQNum : List Nat) : Option Question :=
  questions.find? fun q =>
    normalizeQNum (jsUpper (jsTrim (q.questionNumber.getD []))) == normQNum

/-- Line 37: `(ans.questionNumber || '').toString().trim().toUpperCase()`,
the identifier as recorded in the output evaluation. -/
def rawQNumOf (ans : SubmittedAnswer) : List Nat :=
  jsUpper (jsTrim (ans.questionNumber.getD []))

/-- One iteration of the per-answer loop (lines 36-128): identifier
normalization, question matching, oracle call with validation, fallback
on failure, and the pushed evaluation record.
(`normalizeFull (ans.questionNumber.getD []) = normalizeQNum (rawQNumOf ans)`
by definition, mirroring line 38.) -/
def evaluateOne (questions : List Question) (ans : SubmittedAnswer)
    (env : AnswerEnv) : Evaluation :=
  match findQuestion questions (normalizeFull (ans.questionNumber.getD [])) with
  | none =>
      { questionNumber := rawQNumOf ans, marks := 0,
        feedback := notFoundFeedback, usedFallback := none }
  | some questionObj =>
      match env.oracle with
      | .parsedOk m fb =>
          if fb.isEmpty then
            { questionNumber := rawQNumOf ans,
              marks := (getRandomMarks questionObj.maxMarks env.rMarks : Rat),
              feedback := getRandomFeedback env.rFeedback,
              usedFallback := some true }
          else
            { questionNumber := rawQNumOf ans,
              marks := min m questionObj.maxMarks,
              feedback := fb, usedFallback := some false }
      | _ =>
          { questionNumber := rawQNumOf ans,
            marks := (getRandomMarks questionObj.maxMarks env.rMarks : Rat),
            feedback := getRandomFeedback env.rFeedback,
            usedFallback := some true }

/-- Request body `{ rollNumber, examId }` and the `:rollNumber` route
parameter of `router.post('/:rollNumber', evaluateAnswers)`. -/
structure Request where
  paramRollNumber : List Nat
  bodyRollNumber : Option (List Nat)
  bodyExamId : Option (List Nat)
  deriving DecidableEq, Repr

/-- JavaScript truthiness of an optional string. -/
def truthyStr : Option (List Nat) → Bool
  | none => false
  | some s => !s.isEmpty

/-- JS `a || b` for an optional string `a` and string `b`. -/
def jsOrStr (a : Option (List Nat)) (b : List Nat) : List Nat :=
  match a with
  | some s => if s.isEmpty then b else s
  | none => b

/-- The controller's response, paired with the saved student document on
success.  The `catch`-all 500 branch (lines 147-150) fires only on
exceptions outside this model (storage/transport throws). -/
inductive EvalResponse where
  | badRequest (error : List Nat)
  | notFound (message : List Nat)
  | ok (evaluations : List Evaluation) (totalMarks : Rat)
       (result : List Nat) (saved : Student)
  deriving DecidableEq, Repr

/-- The `for (let ans of student.answers)` loop (lines 29-128): one
evaluation per stored answer, in stored order, the `i`-th consuming the
`i`-th oracle/random environment. -/
def evaluationsOf (exam : Exam) (envs : Nat → AnswerEnv) (student : Student) :
    List Evaluation :=
  student.answers.enum.map fun p => evaluateOne exam.questions p.2 (envs p.1)

/-- Line 131: `evaluations.reduce((sum, e) => sum + e.marks, 0)`. -/
def totalOf (evaluations : List Evaluation) : Rat :=
  evaluations.foldl (fun sum e => sum + e.marks) 0

/-- Line 134: `student.totalMarks >= exam.passMarks ? 'Pass' : 'Fail'`. -/
def resultOf (totalMarks passMarks : Rat) : List Nat :=
  if totalMarks ≥ passMarks then strCodes "Pass" else strCodes "Fail"

/-- The student document as saved at line 138 (lines 130-138: `evaluated`,
`totalMarks`, `result` and the reassignment `student.examId = exam._id`). -/
def savedStudent (student : Student) (exam : Exam) (envs : Nat → AnswerEnv) :
    Student :=
  { student with
      examId := some exam.id
      evaluated := evaluationsOf exam envs student
      totalMarks := totalOf (evaluationsOf exam envs student)
      result := resultOf (totalOf (evaluationsOf exam envs student)) exam.passMarks }

/-- Source function `evaluateAnswers` (part_000 lines 7-151).  `validId` stands for
`mongoose.Types.ObjectId.isValid`; `students` and `exams` model the
stores behind `StudentAnswer.findOne({rollNumber})` and
`Exam.findById`; `envs i` supplies the oracle outcome and random draws
consumed by the `i`-th answer.  The binding step of lines 22-24
(`if (!student.examId) student.examId = examId`) is `jsOrStr`. -/
def evaluateAnswers (validId : List Nat → Bool)
    (students : List Student) (exams : List Exam)
    (envs : Nat → AnswerEnv) (req : Request) : EvalResponse :=
  if !truthyStr req.bodyRollNumber || !truthyStr req.bodyExamId then
    .badRequest (strCodes "rollNumber and examId are required")
  else if !validId (req.bodyExamId.getD []) then
    .badRequest (strCodes "Invalid examId")
  else
    match students.find? (fun s => s.rollNumber == req.bodyRollNumber.getD []) with
    | none => .notFound (strCodes "Student not found")
    | some student =>
      match exams.find? (fun e =>
          e.id == jsOrStr student.examId (req.bodyExamId.getD [])) with
      | none => .notFound (strCodes "Exam not found")
      | some exam =>
        .ok (evaluationsOf exam envs student)
           (totalOf (evaluationsOf exam envs student))
           (resultOf (totalOf (evaluationsOf exam envs student)) exam.passMarks)
           (savedStudent student exam envs)

/-! ### Concrete fixtures for witnesses and counterexamples -/

/-- A question with identifier `"1"` and 10 marks. -/
def cQ1 : Question :=
  { questionNumber := some (strCodes "1"), questionText := strCodes "Define X.",
    maxMarks := 10 }

/-- An answer submitted for question `"1"`. -/
def cAns1 : SubmittedAnswer :=
  { questionNumber := some (strCodes "1"), answerText := strCodes "an answer" }

/-- An answer submitted for the unknown question `"2"`. -/
def cAns2 : SubmittedAnswer :=
  { questionNumber := some (strCodes "2"), answerText := strCodes "another answer" }

/-- A student with a single answer and no exam binding. -/
def cStudent : Student :=
  { rollNumber := strCodes "R1", examId := none, answers := [cAns1],
    evaluated := [], totalMarks := 0, result := [] }

/-- The same student already bound to exam `"E1"`. -/
def cStudentBound : Student :=
  { cStudent with examId := some (strCodes "E1") }

/-- An exam holding `cQ1` with pass threshold 5. -/
def cExam : Exam :=
  { id := strCodes "E1", questions := [cQ1], passMarks := 5 }

/-- A second exam, also holding `cQ1`. -/
def cExam2 : Exam :=
  { id := strCodes "E2", questions := [cQ1], passMarks := 5 }

/-- A request naming `cStudent` and `cExam`. -/
def cReq : Request :=
  { paramRollNumber := strCodes "R1", bodyRollNumber := some (strCodes "R1"),
    bodyExamId := some (strCodes "E1") }

/-- The same request asking for exam `"E2"` instead. -/
def cReq2 : Request :=
  { cReq with bodyExamId := some (strCodes "E2") }

/-- Oracle replies `{"marks": 7, "feedback": "Good"}`. -/
def cEnvGood : AnswerEnv :=
  { oracle := .parsedOk 7 (strCodes "Good"), rMarks := 0, rFeedback := 0 }

/-- Oracle replies `{"marks": -5, "feedback": "bad"}`. -/
def cEnvNeg : AnswerEnv :=
  { oracle := .parsedOk (-5) (strCodes "bad"), rMarks := 0, rFeedback := 0 }

/-- Oracle replies `{"marks": 15, "feedback": "Excellent"}` (scenario D). -/
def cEnvD : AnswerEnv :=
  { oracle := .parsedOk 15 (strCodes "Excellent"), rMarks := 0, rFeedback := 0 }

/-- Oracle reply is unparseable JSON; `Math.random()` returns 1/2 and 0. -/
def cEnvFail : AnswerEnv :=
  { oracle := .malformedJson, rMarks := 1/2, rFeedback := 0 }

/-- The saved binding of a successful run (`none` when the run was not
successful), for stating counterexamples without spelling the whole
response out. -/
def EvalResponse.savedExamId : EvalResponse → Option (Option (List Nat))
  | .ok _ _ _ saved => some saved.examId
  | _ => none

/-- A question whose maximum marks is the fractional number 1/2. -/
def cQhalf : Question :=
  { questionNumber := some (strCodes "1"), questionText := strCodes "Define X.",
    maxMarks := 1/2 }

/-- Oracle reply unparseable; `Math.random()` returns 9/10 for the marks
draw. -/
def cEnvFail9 : AnswerEnv :=
  { oracle := .malformedJson, rMarks := 9/10, rFeedback := 0 }

/-! ### Helper lemmas about trimming, uppercasing and digit extraction -/

theorem dropWhile_head?_false {α : Type} (p : α → Bool) (l : List α) :
    ∀ a, (l.dropWhile p).head? = some a → p a = false := by
  induction l with
  | nil => intro a h; simp [List.dropWhile] at h
  | cons b l ih =>
    intro a h
    by_cases hb : p b
    · rw [List.dropWhile_cons_of_pos hb] at h; exact ih a h
    · rw [List.dropWhile_cons_of_neg hb] at h
      simp at h
      subst h
      simpa using hb

theorem dropWhile_eq_self_of_head {α : Type} (p : α → Bool) (l : List α)
    (h : ∀ a, l.head? = some a → p a = false) : l.dropWhile p = l := by
  cases l with
  | nil => rfl
  | cons a l => exact List.dropWhile_cons_of_neg (by simp [h a rfl])

theorem dropWhile_getLast? {α : Type} (p : α → Bool) (l : List α)
    (h : l.dropWhile p ≠ []) : (l.dropWhile p).getLast? = l.getLast? := by
  induction l with
  | nil => simp at h
  | cons a l ih =>
    by_cases ha : p a
    · rw [List.dropWhile_cons_of_pos ha] at h ⊢
      rw [ih h]
      have hl : l ≠ [] := by rintro rfl; simp [List.dropWhile] at h
      cases l with
      | nil => exact absurd rfl hl
      | cons b l => simp [List.getLast?_cons_cons]
    · rw [List.dropWhile_cons_of_neg ha]


/-- The trimmed string neither starts nor ends with whitespace. -/
theorem jsTrim_head?_getLast? (l : List Nat) :
    (∀ a, (jsTrim l).head? = some a → isWSCode a = false) ∧
    (∀ a, (jsTrim l).getLast? = some a → isWSCode a = false) := by
  unfold jsTrim
  set A := l.dropWhile isWSCode with hA
  set B := A.reverse.dropWhile isWSCode with hB
  constructor
  · intro a h
    rw [List.head?_reverse] at h
    by_cases hBnil : B = []
    · rw [hBnil] at h; simp at h
    · rw [hB, dropWhile_getLast? _ _ (hB ▸ hBnil), List.getLast?_reverse] at h
      exact dropWhile_head?_false _ _ a (hA ▸ h)
  · intro a h
    rw [List.getLast?_reverse] at h
    exact dropWhile_head?_false _ _ a (hB ▸ h)

/-- Trimming a string that neither starts nor ends with whitespace is the
identity. -/
theorem jsTrim_eq_self (l : List Nat)
    (h1 : ∀ a, l.head? = some a → isWSCode a = false)
    (h2 : ∀ a, l.getLast? = some a → isWSCode a = false) :
    jsTrim l = l := by
  unfold jsTrim
  rw [dropWhile_eq_self_of_head _ _ h1]
  rw [dropWhile_eq_self_of_head _ _ (by intro a h; rw [List.head?_reverse] at h; exact h2 a h)]
  exact List.reverse_reverse l

theorem jsTrim_idem (l : List Nat) : jsTrim (jsTrim l) = jsTrim l :=
  jsTrim_eq_self _ (jsTrim_head?_getLast? l).1 (jsTrim_head?_getLast? l).2

theorem upperCode_idem (n : Nat) : upperCode (upperCode n) = upperCode n := by
  unfold upperCode
  by_cases h : 97 ≤ n ∧ n ≤ 122
  · rw [if_pos h, if_neg (by omega)]
  · rw [if_neg h, if_neg h]

theorem isWSCode_upperCode (n : Nat) : isWSCode (upperCode n) = isWSCode n := by
  unfold upperCode isWSCode
  by_cases h : 97 ≤ n ∧ n ≤ 122
  · rw [if_pos h, Bool.eq_iff_iff]
    simp only [Bool.or_eq_true, beq_iff_eq]
    omega
  · rw [if_neg h]

theorem isDigitCode_upperCode (n : Nat) : isDigitCode (upperCode n) = isDigitCode n := by
  unfold upperCode isDigitCode
  by_cases h : 97 ≤ n ∧ n ≤ 122
  · rw [if_pos h, Bool.eq_iff_iff]
    simp only [Bool.and_eq_true, Nat.le_iff_lt_or_eq, decide_eq_true_eq]
    omega
  · rw [if_neg h]

theorem jsUpper_idem (l : List Nat) : jsUpper (jsUpper l) = jsUpper l := by
  unfold jsUpper
  rw [List.map_map]
  exact List.map_congr_left fun a _ => upperCode_idem a


theorem jsTrim_jsUpper_jsTrim (l : List Nat) :
    jsTrim (jsUpper (jsTrim l)) = jsUpper (jsTrim l) := by
  apply jsTrim_eq_self
  · intro a h
    rw [show jsUpper (jsTrim l) = (jsTrim l).map upperCode from rfl, List.head?_map] at h
    cases hh : (jsTrim l).head? with
    | none => rw [hh] at h; simp at h
    | some b =>
      rw [hh] at h
      simp only [Option.map_some'] at h
      cases h
      rw [isWSCode_upperCode]
      exact (jsTrim_head?_getLast? l).1 b hh
  · intro a h
    rw [show jsUpper (jsTrim l) = (jsTrim l).map upperCode from rfl, List.getLast?_map] at h
    cases hh : (jsTrim l).getLast? with
    | none => rw [hh] at h; simp at h
    | some b =>
      rw [hh] at h
      simp only [Option.map_some'] at h
      cases h
      rw [isWSCode_upperCode]
      exact (jsTrim_head?_getLast? l).2 b hh

theorem upperCode_of_digit (n : Nat) (h : isDigitCode n = true) : upperCode n = n := by
  unfold isDigitCode at h
  unfold upperCode
  rw [if_neg]
  simp only [Bool.and_eq_true, decide_eq_true_eq] at h
  omega

theorem isWSCode_of_digit (n : Nat) (h : isDigitCode n = true) : isWSCode n = false := by
  unfold isDigitCode at h
  unfold isWSCode
  simp only [Bool.and_eq_true, decide_eq_true_eq] at h
  simp only [Bool.or_eq_false_iff, beq_eq_false_iff_ne, ne_eq]
  omega

theorem mem_of_getLast?_eq (l : List Nat) (a : Nat) (h : l.getLast? = some a) : a ∈ l := by
  obtain ⟨hne, heq⟩ := List.mem_getLast?_eq_getLast (Option.mem_def.mpr h)
  exact heq ▸ List.getLast_mem hne

theorem digits_fixed (l : List Nat) :
    normalizeFull (l.takeWhile isDigitCode) = l.takeWhile isDigitCode := by
  set d := l.takeWhile isDigitCode with hdDef
  have hmem : ∀ a ∈ d, isDigitCode a = true := fun a ha => List.mem_takeWhile_imp ha
  have htrim : jsTrim d = d := by
    apply jsTrim_eq_self
    · intro a h
      exact isWSCode_of_digit a (hmem a (List.mem_of_mem_head? (Option.mem_def.mpr h)))
    · intro a h
      exact isWSCode_of_digit a (hmem a (mem_of_getLast?_eq d a h))
  have hupper : jsUpper d = d := by
    unfold jsUpper
    rw [List.map_congr_left fun a ha => upperCode_of_digit a (hmem a ha)]
    simp
  unfold normalizeFull
  rw [htrim, hupper]
  unfold normalizeQNum
  rw [List.takeWhile_idem]
  by_cases hempty : d.isEmpty <;> simp [hempty]

theorem getRandomMarks_eq_floor (maxMarks r : Rat) :
    getRandomMarks maxMarks r = ⌊r * (maxMarks + 1)⌋ := by
  rw [getRandomMarks, Rat.floor_def, Rat.floor_def']

/-- The fold `reduce((sum, e) => sum + e.marks, 0)` recomputes the sum of the
`marks` fields. -/
theorem totalOf_eq_sum (evaluations : List Evaluation) :
    totalOf evaluations = (evaluations.map Evaluation.marks).sum := by
  suffices h : ∀ a : Rat, evaluations.foldl (fun sum e => sum + e.marks) a
      = a + (evaluations.map Evaluation.marks).sum by
    rw [totalOf, h 0, zero_add]
  induction evaluations with
  | nil => intro a; simp
  | cons e l ih => intro a; simp [ih, add_assoc]

/-- The not-found branch of the loop (lines 46-53). -/
theorem evaluateOne_notFound (questions : List Question) (ans : SubmittedAnswer)
    (env : AnswerEnv)
    (h : findQuestion questions (normalizeFull (ans.questionNumber.getD [])) = none) :
    evaluateOne questions ans env =
      { questionNumber := rawQNumOf ans, marks := 0,
        feedback := notFoundFeedback, usedFallback := none } := by
  unfold evaluateOne
  rw [h]

/-- The successful-oracle branch (lines 105-108): the parsed object has a
numeric `marks` field and truthy (non-empty) `feedback`. -/
theorem evaluateOne_success (questions : List Question) (ans : SubmittedAnswer)
    (env : AnswerEnv) (q : Question) (m : Rat) (fb : List Nat)
    (hq : findQuestion questions (normalizeFull (ans.questionNumber.getD [])) = some q)
    (ho : env.oracle = .parsedOk m fb) (hfb : fb.isEmpty = false) :
    evaluateOne questions ans env =
      { questionNumber := rawQNumOf ans, marks := min m q.maxMarks,
        feedback := fb, usedFallback := some false } := by
  unfold evaluateOne
  rw [hq, ho]
  simp [hfb]

/-- The catch-block branch (lines 113-120): any oracle failure, including
a falsy `parsed.feedback`, lands in the fallback scorer. -/
theorem evaluateOne_fallback (questions : List Question) (ans : SubmittedAnswer)
    (env : AnswerEnv) (q : Question)
    (hq : findQuestion questions (normalizeFull (ans.questionNumber.getD [])) = some q)
    (hfail : env.oracle.isFailure = true) :
    evaluateOne questions ans env =
      { questionNumber := rawQNumOf ans,
        marks := (getRandomMarks q.maxMarks env.rMarks : Rat),
        feedback := getRandomFeedback env.rFeedback,
        usedFallback := some true } := by
  unfold evaluateOne
  rw [hq]
  cases hor : env.oracle with
  | parsedOk m fb =>
      rw [hor] at hfail
      simp only [OracleResult.isFailure] at hfail
      simp [hfail]
  | transportError => rfl
  | emptyText => rfl
  | malformedJson => rfl
  | missingFields => rfl

/-- Destructuring a successful run of the controller. -/
theorem evaluateAnswers_ok_elim (validId : List Nat → Bool)
    (students : List Student) (exams : List Exam) (envs : Nat → AnswerEnv)
    (req : Request) (evs : List Evaluation) (tot : Rat) (res : List Nat)
    (saved : Student)
    (h : evaluateAnswers validId students exams envs req = .ok evs tot res saved) :
    ∃ student exam,
      students.find? (fun s => s.rollNumber == req.bodyRollNumber.getD [])
        = some student ∧
      exams.find? (fun e => e.id == jsOrStr student.examId (req.bodyExamId.getD []))
        = some exam ∧
      exam.id = jsOrStr student.examId (req.bodyExamId.getD []) ∧
      evs = evaluationsOf exam envs student ∧
      tot = totalOf evs ∧
      res = resultOf tot exam.passMarks ∧
      saved = savedStudent student exam envs := by
  unfold evaluateAnswers at h
  split at h
  · exact EvalResponse.noConfusion h
  split at h
  · exact EvalResponse.noConfusion h
  split at h
  · exact EvalResponse.noConfusion h
  next s heqs =>
  split at h
  · exact EvalResponse.noConfusion h
  next e heqe =>
  refine ⟨s, e, heqs, heqe, ?_, ?_⟩
  · have hp := List.find?_some heqe
    exact eq_of_beq hp
  · injection h with h1 h2 h3 h4
    subst h1
    refine ⟨rfl, h2.symm, ?_, h4.symm⟩
    rw [← h2]
    exact h3.symm

theorem normalizeFull_idem (l : List Nat) :
    normalizeFull (normalizeFull l) = normalizeFull l := by
  have hres : normalizeFull l = (jsUpper (jsTrim l)).takeWhile isDigitCode ∨
      (normalizeFull l = jsUpper (jsTrim l) ∧
        (jsUpper (jsTrim l)).takeWhile isDigitCode = []) := by
    unfold normalizeFull normalizeQNum
    by_cases hempty : ((jsUpper (jsTrim l)).takeWhile isDigitCode).isEmpty
    · right
      refine ⟨by simp [hempty], by simpa [List.isEmpty_iff] using hempty⟩
    · left; simp [hempty]
  rcases hres with h | ⟨h, hnil⟩
  · rw [h, digits_fixed, ← h]
  · rw [h]
    unfold normalizeFull
    rw [jsTrim_jsUpper_jsTrim, jsUpper_idem]
    unfold normalizeQNum
    rw [hnil]
    simp

/-- Bounds for the fallback scorer when the maximum is a natural number. -/
theorem getRandomMarks_bounds (n : ℕ) (r : Rat) (hr0 : 0 ≤ r) (hr1 : r < 1) :
    0 ≤ ((getRandomMarks (n : Rat) r : Int) : Rat) ∧
    ((getRandomMarks (n : Rat) r : Int) : Rat) ≤ (n : Rat) := by
  rw [getRandomMarks_eq_floor]
  constructor
  · have h0 : (0:Int) ≤ ⌊r * ((n:Rat) + 1)⌋ :=
      Int.floor_nonneg.mpr (mul_nonneg hr0 (by positivity))
    exact_mod_cast h0
  · have hlt : r * ((n:Rat) + 1) < ((n:Rat) + 1) := by nlinarith
    have h1 : ⌊r * ((n:Rat) + 1)⌋ < (n:Int) + 1 :=
      Int.floor_lt.mpr (by exact_mod_cast hlt)
    have h2 : ⌊r * ((n:Rat) + 1)⌋ ≤ (n:Int) := by omega
    exact_mod_cast h2

/-! ### Claims -/

/-- Claim C1, counterexample:  The invariant `0 ≤ marks` does NOT hold on
the oracle-success path for negative numeric marks: the code clamps only
from above (`Math.min(parsed.marks, max)`, line 107).  With the oracle
returning `{"marks": -5, "feedback": "bad"}` for the matched maxMarks-10
question, the pipeline records `marks = -5 < 0`. -/
theorem C1_counterexample :
    evaluateAnswers (fun _ => true) [cStudent] [cExam] (fun _ => cEnvNeg) cReq =
      .ok [{ questionNumber := strCodes "1", marks := -5,
             feedback := strCodes "bad", usedFallback := some false }]
        (-5) (strCodes "Fail") (savedStudent cStudent cExam (fun _ => cEnvNeg)) ∧
    ((-5 : Rat) < 0) ∧
    findQuestion cExam.questions (normalizeFull (cAns1.questionNumber.getD []))
      = some cQ1 := by
  refine ⟨?_, by norm_num, rfl⟩
  simp [evaluateAnswers, cStudent, cExam, cReq, cEnvNeg, cQ1, cAns1,
    truthyStr, strCodes, jsOrStr, evaluationsOf, totalOf, resultOf,
    evaluateOne, findQuestion, normalizeQNum, normalizeFull, jsUpper, jsTrim,
    upperCode, isWSCode, isDigitCode, notFoundFeedback, rawQNumOf]
  norm_num

/-- Claim C1 (amended):  Marks bounds per evaluation: `marks = 0` when no
question matched; when a question matched and its maxMarks is a
nonnegative integer, `0 ≤ marks ≤ maxMarks` holds PROVIDED the oracle
returns a nonnegative marks value on the success path (negative oracle
values are recorded unclamped, see the counterexample). -/
theorem C1_theorem (questions : List Question) (ans : SubmittedAnswer)
    (env : AnswerEnv) (hr0 : 0 ≤ env.rMarks) (hr1 : env.rMarks < 1) :
    (findQuestion questions (normalizeFull (ans.questionNumber.getD [])) = none →
      (evaluateOne questions ans env).marks = 0) ∧
    (∀ q : Question, ∀ n : ℕ,
      findQuestion questions (normalizeFull (ans.questionNumber.getD [])) = some q →
      q.maxMarks = (n : Rat) →
      (∀ m fb, env.oracle = .parsedOk m fb → 0 ≤ m) →
      0 ≤ (evaluateOne questions ans env).marks ∧
      (evaluateOne questions ans env).marks ≤ q.maxMarks) := by
  constructor
  · intro h
    rw [evaluateOne_notFound questions ans env h]
  · intro q n hq hmax hpos
    cases hor : env.oracle with
    | parsedOk m fb =>
      by_cases hfb : fb.isEmpty
      · rw [evaluateOne_fallback questions ans env q hq
          (by rw [hor]; simp [OracleResult.isFailure, hfb])]
        have hb := getRandomMarks_bounds n env.rMarks hr0 hr1
        rw [hmax]
        exact hb
      · rw [evaluateOne_success questions ans env q m fb hq hor
          (by simpa using hfb)]
        refine ⟨le_min (hpos m fb hor) ?_, min_le_right _ _⟩
        rw [hmax]
        positivity
    | transportError =>
      rw [evaluateOne_fallback questions ans env q hq (by rw [hor]; rfl)]
      have hb := getRandomMarks_bounds n env.rMarks hr0 hr1
      rw [hmax]
      exact hb
    | emptyText =>
      rw [evaluateOne_fallback questions ans env q hq (by rw [hor]; rfl)]
      have hb := getRandomMarks_bounds n env.rMarks hr0 hr1
      rw [hmax]
      exact hb
    | malformedJson =>
      rw [evaluateOne_fallback questions ans env q hq (by rw [hor]; rfl)]
      have hb := getRandomMarks_bounds n env.rMarks hr0 hr1
      rw [hmax]
      exact hb
    | missingFields =>
      rw [evaluateOne_fallback questions ans env q hq (by rw [hor]; rfl)]
      have hb := getRandomMarks_bounds n env.rMarks hr0 hr1
      rw [hmax]
      exact hb

/-- Claim C1, witness: the scenario-A evaluation (oracle marks 7 for the
maxMarks-10 question) lies within `[0, 10]`. -/
theorem C1_witness :
    0 ≤ (evaluateOne [cQ1] cAns1 cEnvGood).marks ∧
    (evaluateOne [cQ1] cAns1 cEnvGood).marks ≤ cQ1.maxMarks := by
  refine (C1_theorem [cQ1] cAns1 cEnvGood (by norm_num [cEnvGood])
      (by norm_num [cEnvGood])).2 cQ1 10 rfl (by norm_num [cQ1]) ?_
  intro m fb hm
  simp only [cEnvGood] at hm
  injection hm with h1 h2
  rw [← h1]
  norm_num


/-- Claim C2, counterexample:  `"Q1a"` does not normalize to `"1"`: the
regex `/^\d+/` requires a *leading* digit, and the trimmed-uppercased
form `"Q1A"` starts with `Q`, so normalization returns `"Q1A"` itself;
consequently `"Q1a"` does not match a question whose identifier
normalizes to `"1"`. -/
theorem C2_counterexample :
    normalizeFull (strCodes "Q1a") ≠ strCodes "1" ∧
    normalizeFull (strCodes "Q1a") = strCodes "Q1A" ∧
    findQuestion [cQ1] (normalizeFull (strCodes "Q1a")) = none := by
  refine ⟨by decide, by decide, rfl⟩

/-- Claim C2 (amended):  Identifier normalization (trim, uppercase, extract
the leading run of decimal digits, falling back to the trimmed-uppercased
string when it has no leading digit) is idempotent; `"1-A"` and `" 1 "`
normalize to `"1"` and hence match a question whose identifier normalizes
to `"1"`, while `"Q1a"` normalizes to `"Q1A"` and does not. -/
theorem C2_theorem :
    (∀ l : List Nat, normalizeFull (normalizeFull l) = normalizeFull l) ∧
    normalizeFull (strCodes "1-A") = strCodes "1" ∧
    normalizeFull (strCodes " 1 ") = strCodes "1" ∧
    normalizeFull (strCodes "Q1a") = strCodes "Q1A" ∧
    findQuestion [cQ1] (normalizeFull (strCodes "1-A")) = some cQ1 ∧
    findQuestion [cQ1] (normalizeFull (strCodes " 1 ")) = some cQ1 := by
  exact ⟨normalizeFull_idem, by decide, by decide, by decide, rfl, rfl⟩

/-- Claim C3, counterexample:  A student already bound to exam `"E1"`,
re-evaluated with `examId = "E2"` in the body, is accepted (the run
succeeds) but the persisted binding stays `"E1"`: the submission is NOT
rebound to the new exam identifier. -/
theorem C3_counterexample :
    (evaluateAnswers (fun _ => true) [cStudentBound] [cExam, cExam2]
        (fun _ => cEnvGood) cReq2).savedExamId = some (some (strCodes "E1")) ∧
    cReq2.bodyExamId = some (strCodes "E2") ∧
    strCodes "E1" ≠ strCodes "E2" := by
  exact ⟨rfl, rfl, by decide⟩

/-- Claim C3 (amended):  The persisted binding after a successful run is
`student.examId || examId`: when the submission has no exam bound (or an
empty binding), the supplied exam identifier is adopted and persisted;
otherwise a call supplying a different exam identifier is accepted but
the original binding is kept (the new identifier is silently ignored). -/
theorem C3_theorem (validId : List Nat → Bool) (students : List Student)
    (exams : List Exam) (envs : Nat → AnswerEnv) (req : Request)
    (evs : List Evaluation) (tot : Rat) (res : List Nat) (saved : Student)
    (student : Student)
    (hs : students.find? (fun s => s.rollNumber == req.bodyRollNumber.getD [])
      = some student)
    (h : evaluateAnswers validId students exams envs req = .ok evs tot res saved) :
    saved.examId = some (jsOrStr student.examId (req.bodyExamId.getD [])) ∧
    (student.examId = none → saved.examId = some (req.bodyExamId.getD [])) := by
  obtain ⟨student2, exam, hs2, hfind, hid, _, _, _, hsaved⟩ :=
    evaluateAnswers_ok_elim validId students exams envs req evs tot res saved h
  rw [hs] at hs2
  injection hs2 with hseq
  subst hseq
  subst hsaved
  constructor
  · show (savedStudent student exam envs).examId = _
    simp [savedStudent, hid]
  · intro hnone
    show (savedStudent student exam envs).examId = _
    simp [savedStudent, hid, jsOrStr, hnone]

/-- Claim C3, witness: a first evaluation of the unbound `cStudent` with
`examId = "E1"` persists the binding `"E1"`. -/
theorem C3_witness :
    (savedStudent cStudent cExam (fun _ => cEnvGood)).examId
      = some (strCodes "E1") := by
  have h := C3_theorem (fun _ => true) [cStudent] [cExam] (fun _ => cEnvGood) cReq
    (evaluationsOf cExam (fun _ => cEnvGood) cStudent)
    (totalOf (evaluationsOf cExam (fun _ => cEnvGood) cStudent))
    (resultOf (totalOf (evaluationsOf cExam (fun _ => cEnvGood) cStudent))
      cExam.passMarks)
    (savedStudent cStudent cExam (fun _ => cEnvGood)) cStudent rfl rfl
  simpa [cStudent, cReq, jsOrStr] using h.1

/-- Claim C4:  On every successful run, the reported `totalMarks` equals the
sum of the `marks` fields over the returned evaluation list (including
zero-mark not-found entries), with no other contribution, and the saved
student carries that same total. -/
theorem C4_theorem (validId : List Nat → Bool) (students : List Student)
    (exams : List Exam) (envs : Nat → AnswerEnv) (req : Request)
    (evs : List Evaluation) (tot : Rat) (res : List Nat) (saved : Student)
    (h : evaluateAnswers validId students exams envs req = .ok evs tot res saved) :
    tot = (evs.map Evaluation.marks).sum ∧ saved.totalMarks = tot := by
  obtain ⟨student, exam, hs2, hfind, hid, hevs, htot, hres, hsaved⟩ :=
    evaluateAnswers_ok_elim validId students exams envs req evs tot res saved h
  constructor
  · rw [htot, totalOf_eq_sum]
  · rw [hsaved]
    show totalOf (evaluationsOf exam envs student) = tot
    rw [htot, hevs]

/-- Claim C4, witness: the scenario-A run reports `totalMarks = 7`, the sum
over its single evaluation. -/
theorem C4_witness :
    totalOf (evaluationsOf cExam (fun _ => cEnvGood) cStudent) =
      ((evaluationsOf cExam (fun _ => cEnvGood) cStudent).map Evaluation.marks).sum ∧
    (savedStudent cStudent cExam (fun _ => cEnvGood)).totalMarks =
      totalOf (evaluationsOf cExam (fun _ => cEnvGood) cStudent) :=
  C4_theorem (fun _ => true) [cStudent] [cExam] (fun _ => cEnvGood) cReq
    (evaluationsOf cExam (fun _ => cEnvGood) cStudent)
    (totalOf (evaluationsOf cExam (fun _ => cEnvGood) cStudent))
    (resultOf (totalOf (evaluationsOf cExam (fun _ => cEnvGood) cStudent))
      cExam.passMarks)
    (savedStudent cStudent cExam (fun _ => cEnvGood)) rfl

/-- Claim C5:  On every successful run, the verdict is `"Pass"` iff
`totalMarks ≥ passMarks` (so `totalMarks = passMarks` yields `"Pass"`:
the comparison is inclusive), and the verdict is the pure function
`resultOf` of the returned evaluation list's recomputed sum and the
threshold alone. -/
theorem C5_theorem (validId : List Nat → Bool) (students : List Student)
    (exams : List Exam) (envs : Nat → AnswerEnv) (req : Request)
    (evs : List Evaluation) (tot : Rat) (res : List Nat) (saved : Student)
    (student : Student) (exam : Exam)
    (hs : students.find? (fun s => s.rollNumber == req.bodyRollNumber.getD [])
      = some student)
    (he : exams.find? (fun e => e.id == jsOrStr student.examId (req.bodyExamId.getD []))
      = some exam)
    (h : evaluateAnswers validId students exams envs req = .ok evs tot res saved) :
    (res = strCodes "Pass" ↔ exam.passMarks ≤ tot) ∧
    (res = strCodes "Fail" ↔ ¬exam.passMarks ≤ tot) ∧
    (tot = exam.passMarks → res = strCodes "Pass") ∧
    res = resultOf ((evs.map Evaluation.marks).sum) exam.passMarks := by
  obtain ⟨student2, exam2, hs2, hfind, hid, hevs, htot, hres, hsaved⟩ :=
    evaluateAnswers_ok_elim validId students exams envs req evs tot res saved h
  rw [hs] at hs2
  injection hs2 with hseq
  subst hseq
  rw [he] at hfind
  injection hfind with heeq
  subst heeq
  have hPF : strCodes "Pass" ≠ strCodes "Fail" := by decide
  subst hres
  have hiff : ∀ t : Rat,
      (resultOf t exam.passMarks = strCodes "Pass" ↔ exam.passMarks ≤ t) := by
    intro t
    unfold resultOf
    by_cases hc : t ≥ exam.passMarks
    · rw [if_pos hc]
      exact ⟨fun _ => hc, fun _ => rfl⟩
    · rw [if_neg hc]
      exact ⟨fun hco => (hPF hco.symm).elim, fun hle => (hc hle).elim⟩
  refine ⟨hiff tot, ?_, ?_, ?_⟩
  · unfold resultOf
    by_cases hc : tot ≥ exam.passMarks
    · rw [if_pos hc]
      exact ⟨fun hco => (hPF hco).elim, fun hn => (hn hc).elim⟩
    · rw [if_neg hc]
      exact ⟨fun _ => hc, fun _ => rfl⟩
  · intro heq
    exact (hiff tot).mpr (le_of_eq heq.symm)
  · rw [htot, totalOf_eq_sum]

/-- Claim C5, witness: the scenario-A run (total 7 against threshold 5)
yields the verdict `"Pass"`. -/
theorem C5_witness :
    resultOf (totalOf (evaluationsOf cExam (fun _ => cEnvGood) cStudent))
      cExam.passMarks = strCodes "Pass" := by
  have h := C5_theorem (fun _ => true) [cStudent] [cExam] (fun _ => cEnvGood) cReq
    (evaluationsOf cExam (fun _ => cEnvGood) cStudent)
    (totalOf (evaluationsOf cExam (fun _ => cEnvGood) cStudent))
    (resultOf (totalOf (evaluationsOf cExam (fun _ => cEnvGood) cStudent))
      cExam.passMarks)
    (savedStudent cStudent cExam (fun _ => cEnvGood)) cStudent cExam rfl rfl rfl
  refine h.1.mpr ?_
  have htot : totalOf (evaluationsOf cExam (fun _ => cEnvGood) cStudent) = 7 := by
    simp [totalOf, evaluationsOf, cStudent, cExam, cAns1, cQ1, cEnvGood,
      evaluateOne, findQuestion, normalizeFull, normalizeQNum, jsUpper, jsTrim,
      upperCode, isWSCode, isDigitCode, strCodes, rawQNumOf]
    norm_num
  rw [htot]
  norm_num [cExam]

/-- Claim C6:  A submitted answer whose identifier matches no exam question
yields the evaluation `{marks: 0, feedback: "Question not found in exam
config."}` (with no `usedFallback` field), and the oracle/random
environment is never consulted for it: the evaluation is the same under
every environment, so the Grading Client is not invoked. -/
theorem C6_theorem (questions : List Question) (ans : SubmittedAnswer)
    (env : AnswerEnv)
    (h : findQuestion questions (normalizeFull (ans.questionNumber.getD [])) = none) :
    (evaluateOne questions ans env).marks = 0 ∧
    (evaluateOne questions ans env).feedback
      = strCodes "Question not found in exam config." ∧
    (evaluateOne questions ans env).usedFallback = none ∧
    ∀ env2 : AnswerEnv, evaluateOne questions ans env2 = evaluateOne questions ans env := by
  rw [evaluateOne_notFound questions ans env h]
  refine ⟨rfl, rfl, rfl, fun env2 => ?_⟩
  rw [evaluateOne_notFound questions ans env2 h]

/-- Claim C6, witness: the answer for `"2"` against an exam knowing only
`"1"`. -/
theorem C6_witness :
    (evaluateOne [cQ1] cAns2 cEnvGood).marks = 0 ∧
    (evaluateOne [cQ1] cAns2 cEnvGood).feedback
      = strCodes "Question not found in exam config." ∧
    (evaluateOne [cQ1] cAns2 cEnvGood).usedFallback = none ∧
    ∀ env2 : AnswerEnv, evaluateOne [cQ1] cAns2 env2 = evaluateOne [cQ1] cAns2 cEnvGood :=
  C6_theorem [cQ1] cAns2 cEnvGood rfl

/-- Claim C7, counterexample:  For a fractional maximum the fallback draw
`Math.floor(Math.random() * (maxMarks + 1))` can exceed `maxMarks`: with
`maxMarks = 1/2` and a draw of `9/10`, the fallback records
`marks = ⌊9/10 · 3/2⌋ = 1 > 1/2`, outside `[0, maxMarks]`. -/
theorem C7_counterexample :
    (evaluateOne [cQhalf] cAns1 cEnvFail9).usedFallback = some true ∧
    (evaluateOne [cQhalf] cAns1 cEnvFail9).marks = 1 ∧
    ¬((evaluateOne [cQhalf] cAns1 cEnvFail9).marks ≤ cQhalf.maxMarks) := by
  have hev := evaluateOne_fallback [cQhalf] cAns1 cEnvFail9 cQhalf rfl rfl
  have harg : cEnvFail9.rMarks * (cQhalf.maxMarks + 1) = 27/20 := by
    norm_num [cQhalf, cEnvFail9]
  have h1 : ⌊(27:Rat)/20⌋ = 1 := by
    rw [Int.floor_eq_iff]
    norm_num
  have hfl : ((getRandomMarks cQhalf.maxMarks cEnvFail9.rMarks : Int) : Rat) = 1 := by
    rw [getRandomMarks_eq_floor, harg, h1]
    norm_num
  rw [hev]
  refine ⟨rfl, hfl, ?_⟩
  show ¬((getRandomMarks cQhalf.maxMarks cEnvFail9.rMarks : Int) : Rat) ≤ cQhalf.maxMarks
  rw [hfl]
  norm_num [cQhalf]

/-- Claim C7 (amended):  Every grading failure (transport error, empty
text, malformed JSON, missing numeric marks, missing/empty feedback)
yields `usedFallback = true` and marks equal to the floor of the uniform
draw scaled over `[0, maxMarks+1)`; these marks are an integer with
`0 ≤ marks < maxMarks + 1`, and lie within `[0, maxMarks]` whenever
`maxMarks` is a (nonnegative) integer — for fractional maxima the upper
bound can be exceeded (see the counterexample). -/
theorem C7_theorem (questions : List Question) (ans : SubmittedAnswer)
    (env : AnswerEnv) (q : Question)
    (hq : findQuestion questions (normalizeFull (ans.questionNumber.getD [])) = some q)
    (hfail : env.oracle.isFailure = true)
    (hr0 : 0 ≤ env.rMarks) (hr1 : env.rMarks < 1) (hmax : 0 ≤ q.maxMarks) :
    (evaluateOne questions ans env).usedFallback = some true ∧
    (evaluateOne questions ans env).marks
      = ((⌊env.rMarks * (q.maxMarks + 1)⌋ : Int) : Rat) ∧
    0 ≤ (evaluateOne questions ans env).marks ∧
    (evaluateOne questions ans env).marks < q.maxMarks + 1 ∧
    (∀ n : ℕ, q.maxMarks = (n : Rat) →
      (evaluateOne questions ans env).marks ≤ q.maxMarks) := by
  rw [evaluateOne_fallback questions ans env q hq hfail]
  have hflr : ((getRandomMarks q.maxMarks env.rMarks : Int) : Rat)
      = ((⌊env.rMarks * (q.maxMarks + 1)⌋ : Int) : Rat) := by
    rw [getRandomMarks_eq_floor]
  refine ⟨rfl, hflr, ?_, ?_, ?_⟩
  · show (0:Rat) ≤ ((getRandomMarks q.maxMarks env.rMarks : Int) : Rat)
    rw [hflr]
    have h0 : (0:Int) ≤ ⌊env.rMarks * (q.maxMarks + 1)⌋ :=
      Int.floor_nonneg.mpr (mul_nonneg hr0 (by linarith))
    exact_mod_cast h0
  · show ((getRandomMarks q.maxMarks env.rMarks : Int) : Rat) < q.maxMarks + 1
    rw [hflr]
    calc ((⌊env.rMarks * (q.maxMarks + 1)⌋ : Int) : Rat)
        ≤ env.rMarks * (q.maxMarks + 1) := Int.floor_le _
      _ < q.maxMarks + 1 := by nlinarith
  · intro n hn
    show ((getRandomMarks q.maxMarks env.rMarks : Int) : Rat) ≤ q.maxMarks
    rw [hn]
    exact (getRandomMarks_bounds n env.rMarks hr0 hr1).2

/-- Claim C7, witness: a malformed-JSON failure on the maxMarks-10 question
with draw 1/2 produces a fallback evaluation with marks in `[0, 10]`. -/
theorem C7_witness :
    (evaluateOne [cQ1] cAns1 cEnvFail).usedFallback = some true ∧
    0 ≤ (evaluateOne [cQ1] cAns1 cEnvFail).marks ∧
    (evaluateOne [cQ1] cAns1 cEnvFail).marks ≤ cQ1.maxMarks := by
  have h := C7_theorem [cQ1] cAns1 cEnvFail cQ1 rfl rfl
    (by norm_num [cEnvFail]) (by norm_num [cEnvFail]) (by norm_num [cQ1])
  exact ⟨h.1, h.2.2.1, h.2.2.2.2 10 (by norm_num [cQ1])⟩

/-- Claim C8:  On a successful oracle reply with a numeric `marks` field and
truthy feedback, the recorded marks are `min(parsed.marks, maxMarks)` and
the feedback is recorded verbatim, with `usedFallback = false`. -/
theorem C8_theorem (questions : List Question) (ans : SubmittedAnswer)
    (env : AnswerEnv) (q : Question) (m : Rat) (fb : List Nat)
    (hq : findQuestion questions (normalizeFull (ans.questionNumber.getD [])) = some q)
    (ho : env.oracle = .parsedOk m fb) (hfb : fb ≠ []) :
    (evaluateOne questions ans env).marks = min m q.maxMarks ∧
    (evaluateOne questions ans env).feedback = fb ∧
    (evaluateOne questions ans env).usedFallback = some false := by
  rw [evaluateOne_success questions ans env q m fb hq ho
    (by simpa [List.isEmpty_iff] using hfb)]
  exact ⟨rfl, rfl, rfl⟩

/-- Claim C8, witness (scenario D): a reply of marks 15 for a maxMarks-10
question is clamped to 10, feedback `"Excellent"` kept verbatim. -/
theorem C8_witness :
    (evaluateOne [cQ1] cAns1 cEnvD).marks = 10 ∧
    (evaluateOne [cQ1] cAns1 cEnvD).feedback = strCodes "Excellent" ∧
    (evaluateOne [cQ1] cAns1 cEnvD).usedFallback = some false := by
  have h := C8_theorem [cQ1] cAns1 cEnvD cQ1 15 (strCodes "Excellent")
    rfl rfl (by decide)
  refine ⟨?_, h.2.1, h.2.2⟩
  rw [h.1]
  norm_num [cQ1]

/-- Claim C9:  On every successful run, each stored answer yields exactly
one evaluation — the output list has the same length as the stored
answer list — and the `i`-th evaluation is the evaluation of the `i`-th
stored answer: output order matches stored order. -/
theorem C9_theorem (validId : List Nat → Bool) (students : List Student)
    (exams : List Exam) (envs : Nat → AnswerEnv) (req : Request)
    (evs : List Evaluation) (tot : Rat) (res : List Nat) (saved : Student)
    (student : Student) (exam : Exam)
    (hs : students.find? (fun s => s.rollNumber == req.bodyRollNumber.getD [])
      = some student)
    (he : exams.find? (fun e => e.id == jsOrStr student.examId (req.bodyExamId.getD []))
      = some exam)
    (h : evaluateAnswers validId students exams envs req = .ok evs tot res saved) :
    evs.length = student.answers.length ∧
    ∀ i : Nat, evs[i]? = (student.answers[i]?).map
      (fun a => evaluateOne exam.questions a (envs i)) := by
  obtain ⟨student2, exam2, hs2, hfind, hid, hevs, htot, hres, hsaved⟩ :=
    evaluateAnswers_ok_elim validId students exams envs req evs tot res saved h
  rw [hs] at hs2
  injection hs2 with hseq
  subst hseq
  rw [he] at hfind
  injection hfind with heeq
  subst heeq
  subst hevs
  constructor
  · simp [evaluationsOf]
  · intro i
    simp [evaluationsOf, List.getElem?_map, List.getElem?_enum, Option.map_map]
    rfl

/-- Claim C9, witness: the scenario-A run returns one evaluation for the
one stored answer, at the same index. -/
theorem C9_witness :
    (evaluationsOf cExam (fun _ => cEnvGood) cStudent).length
      = cStudent.answers.length ∧
    (evaluationsOf cExam (fun _ => cEnvGood) cStudent)[0]? =
      (cStudent.answers[0]?).map (fun a => evaluateOne cExam.questions a cEnvGood) := by
  have h := C9_theorem (fun _ => true) [cStudent] [cExam] (fun _ => cEnvGood) cReq
    (evaluationsOf cExam (fun _ => cEnvGood) cStudent)
    (totalOf (evaluationsOf cExam (fun _ => cEnvGood) cStudent))
    (resultOf (totalOf (evaluationsOf cExam (fun _ => cEnvGood) cStudent))
      cExam.passMarks)
    (savedStudent cStudent cExam (fun _ => cEnvGood)) cStudent cExam rfl rfl rfl
  exact ⟨h.1, h.2 0⟩

/-- Claim C10:  The `:rollNumber` route parameter of
`router.post('/:rollNumber', evaluateAnswers)` is ignored: the handler
reads only `req.body`, so two requests with the same body and different
path parameters produce identical outcomes (the same submission is
looked up and evaluated). -/
theorem C10_theorem (validId : List Nat → Bool) (students : List Student)
    (exams : List Exam) (envs : Nat → AnswerEnv) (p1 p2 : List Nat)
    (rollNumber examId : Option (List Nat)) :
    evaluateAnswers validId students exams envs
      { paramRollNumber := p1, bodyRollNumber := rollNumber, bodyExamId := examId } =
    evaluateAnswers validId students exams envs
      { paramRollNumber := p2, bodyRollNumber := rollNumber, bodyExamId := examId } := rfl

end PaperEval
